import Mathlib

/-!
Shallow embedding of the notes-api repository: a CRUD "Notes" service in two
variants, verified against its natural-language specification.

Variant A (directory `src/modules/notes`): string-valued ids, a
`NotFoundException` raised by `findOne` / `update` / `remove` when the id is
absent, and an optional `LIKE`-based title filter in `findAll`.

Variant B (directory `src/notes`): numeric ids, no existence checks
(`findOne` resolves to a null marker for absent ids, `remove` deletes
unconditionally), and an unfiltered `findAll`.

The relational store (a TypeORM repository over a single table) is external
to the repository; it is modelled from the spec's repository contract as a
list of records plus an id counter.  Stateful service methods are embedded
as explicit state-passing functions: a method that can both answer and write
returns a pair of its result and the store after the call.
-/

/-- The persisted `Note` entity: a store-assigned id plus the free-form text
attributes.  The entity file is not part of the repository snapshot; modelled
from the spec: an identifier (`ι` is `String` in variant A, `Nat` in
variant B) and a `title` / `content` pair. -/
structure Note (ι : Type) where
  id : ι
  title : String
  content : String
  deriving Repr, DecidableEq

/-- Modelled from the spec: the external relational store owning the Note
records, with let-the-store-assign-id creation (auto-incrementing counter;
rendered as a decimal string in the string-id variant). -/
structure Store (ι : Type) where
  notes : List (Note ι)
  nextId : Nat
  deriving Repr, DecidableEq

/-- `FilterNoteDto` of variant A: one optional `title` field. -/
structure FilterNoteDto where
  title : Option String
  deriving Repr, DecidableEq

/-- Modelled from the spec: `CreateNoteDto` / the POST body, the
caller-supplied attribute set of a new Note (every attribute of the entity
except the store-assigned id). -/
structure CreateDto where
  title : String
  content : String
  deriving Repr, DecidableEq

/-- Modelled from the spec: `UpdateNoteDto` / the PUT body, a partial
attribute bag; `none` stands for an absent key.  The id is store-assigned and
immutable after creation, so it is not an attribute of the payload. -/
structure NotePatch where
  title : Option String
  content : Option String
  deriving Repr, DecidableEq

/-- Field-by-field merge of a partial payload over an existing record: only
present keys overwrite (`Object.assign(note, dto)` in variant A, the SET
clause of `repository.update` in variant B). -/
def applyPatch {ι : Type} (n : Note ι) (u : NotePatch) : Note ι :=
  { n with
    title := u.title.getD n.title,
    content := u.content.getD n.content }

/-- `p` is a leading segment of `l` (character-list level). -/
def prefOf : List Char → List Char → Bool
  | [], _ => true
  | _ :: _, [] => false
  | a :: as, b :: bs => a == b && prefOf as bs

/-- `p` occurs contiguously somewhere inside `l`. -/
def occursIn (p : List Char) : List Char → Bool
  | [] => prefOf p []
  | c :: cs => prefOf p (c :: cs) || occursIn p cs

/-- The store's evaluation of the variant-A query condition
`note.title LIKE :title` with the pattern `%pat%`: modelled from the spec as
substring containment of `pat` in the title. -/
def likeContains (s pat : String) : Bool := occursIn pat.data s.data

/-- The error raised by variant A's existence checks
(`NotFoundException` with the service's message). -/
inductive Err where
  | notFound (msg : String)
  deriving Repr, DecidableEq

/-- The message variant A's `findOne` builds for an absent id. -/
def notFoundMsg (id : String) : String :=
  "Note with ID \"" ++ id ++ "\" not found."

/-- Modelled from the spec: the generated string identifier the store assigns
in variant A, rendered from the store's counter. -/
def genStringId (s : Store String) : String := toString s.nextId

/-- Variant A `create`: `repository.create(dto)` then `repository.save`,
which inserts the record and assigns its id. -/
def ServiceA.create (s : Store String) (dto : CreateDto) :
    Note String × Store String :=
  let note : Note String :=
    { id := genStringId s, title := dto.title, content := dto.content }
  (note, { notes := s.notes ++ [note], nextId := s.nextId + 1 })

/-- Variant A `findAll`: a query builder over the table; the condition
`note.title LIKE %title%` is added only under `if (filterNoteDto.title)`,
i.e. only when `title` is present and non-empty (JavaScript truthiness). -/
def ServiceA.findAll (s : Store String) (f : FilterNoteDto) :
    List (Note String) :=
  match f.title with
  | some t =>
    if t.isEmpty then s.notes
    else s.notes.filter (fun n => likeContains n.title t)
  | none => s.notes

/-- Variant A `findOne`: `findOneBy({ id })`, raising `NotFoundException`
when no record matches. -/
def ServiceA.findOne (s : Store String) (id : String) :
    Except Err (Note String) :=
  match s.notes.find? (fun n => n.id == id) with
  | some note => .ok note
  | none => .error (.notFound (notFoundMsg id))

/-- Variant A `update`: `findOne` (propagating its `NotFoundException`),
`Object.assign(note, dto)`, then `save`, which rewrites the row with that
id and returns the merged record. -/
def ServiceA.update (s : Store String) (id : String) (dto : NotePatch) :
    Except Err (Note String) × Store String :=
  match ServiceA.findOne s id with
  | .error e => (.error e, s)
  | .ok note =>
    let merged := applyPatch note dto
    (.ok merged,
      { s with notes := s.notes.map fun k => if k.id == merged.id then merged else k })

/-- Variant A `remove`: `findOne` (propagating its `NotFoundException`),
then `repository.remove(note)`, deleting the record with that id. -/
def ServiceA.remove (s : Store String) (id : String) :
    Except Err Unit × Store String :=
  match ServiceA.findOne s id with
  | .error e => (.error e, s)
  | .ok note =>
    (.ok (), { s with notes := s.notes.filter fun k => !(k.id == note.id) })

/-- Whether a stored record matches a variant-B id query.  The query is an
`Option Nat`: `some k` is the JavaScript number `k`, `none` is `NaN` (the
result of coercing a non-numeric path segment), which matches no row. -/
def matchesId (q : Option Nat) (n : Note Nat) : Bool :=
  match q with
  | some k => n.id == k
  | none => false

/-- Variant B `findAll`: `repository.find()`, every record, no filter. -/
def ServiceB.findAll (s : Store Nat) : List (Note Nat) := s.notes

/-- Variant B `findOne`: `repository.findOne({ where: { id } })`; resolves to
a null marker (`none`) when the id is absent — no error is raised. -/
def ServiceB.findOne (s : Store Nat) (q : Option Nat) : Option (Note Nat) :=
  s.notes.find? (matchesId q)

/-- Variant B `create`: `repository.create(note)` then `save`, inserting the
record with the store-assigned auto-increment id. -/
def ServiceB.create (s : Store Nat) (dto : CreateDto) :
    Note Nat × Store Nat :=
  let note : Note Nat :=
    { id := s.nextId, title := dto.title, content := dto.content }
  (note, { notes := s.notes ++ [note], nextId := s.nextId + 1 })

/-- Variant B `update`: `repository.update(id, note)` sets the given columns
on every row matching the id (a no-op when the id is absent), then the
method returns `this.findOne(id)` against the updated store. -/
def ServiceB.update (s : Store Nat) (q : Option Nat) (dto : NotePatch) :
    Option (Note Nat) × Store Nat :=
  let s2 : Store Nat :=
    { s with notes := s.notes.map fun k => if matchesId q k then applyPatch k dto else k }
  (ServiceB.findOne s2 q, s2)

/-- Variant B `remove`: `repository.delete(id)` with no existence check;
deletes the matching rows and resolves either way. -/
def ServiceB.remove (s : Store Nat) (q : Option Nat) : Store Nat :=
  { s with notes := s.notes.filter fun k => !(matchesId q k) }

/-- The controller-level id marshalling of variant B: the JavaScript unary
plus `+id` on the path segment, `none` standing for `NaN`. -/
def jsToNumber (s : String) : Option Nat := s.toNat?

/-- Variant A controller `POST /notes`. -/
def ControllerA.create (s : Store String) (dto : CreateDto) :
    Note String × Store String :=
  ServiceA.create s dto

/-- Variant A controller `GET /notes` (filter DTO read from the body). -/
def ControllerA.findAll (s : Store String) (f : FilterNoteDto) :
    List (Note String) :=
  ServiceA.findAll s f

/-- Variant A controller `GET /notes/:id`. -/
def ControllerA.findOne (s : Store String) (id : String) :
    Except Err (Note String) :=
  ServiceA.findOne s id

/-- Variant A controller `PUT /notes/:id`. -/
def ControllerA.update (s : Store String) (id : String) (dto : NotePatch) :
    Except Err (Note String) × Store String :=
  ServiceA.update s id dto

/-- Variant A controller `DELETE /notes/:id`. -/
def ControllerA.remove (s : Store String) (id : String) :
    Except Err Unit × Store String :=
  ServiceA.remove s id

/-- Variant B controller `GET /notes`. -/
def ControllerB.findAll (s : Store Nat) : List (Note Nat) :=
  ServiceB.findAll s

/-- Variant B controller `GET /notes/:id`: coerces the path id with `+id`. -/
def ControllerB.findOne (s : Store Nat) (id : String) : Option (Note Nat) :=
  ServiceB.findOne s (jsToNumber id)

/-- Variant B controller `POST /notes`. -/
def ControllerB.create (s : Store Nat) (dto : CreateDto) :
    Note Nat × Store Nat :=
  ServiceB.create s dto

/-- Variant B controller `PUT /notes/:id`: coerces the path id with `+id`. -/
def ControllerB.update (s : Store Nat) (id : String) (dto : NotePatch) :
    Option (Note Nat) × Store Nat :=
  ServiceB.update s (jsToNumber id) dto

/-- Variant B controller `DELETE /notes/:id`: coerces the path id with
`+id`. -/
def ControllerB.remove (s : Store Nat) (id : String) : Store Nat :=
  ServiceB.remove s (jsToNumber id)

/-- An empty variant-B store, as the store initializes. -/
def storeB0 : Store Nat := { notes := [], nextId := 1 }

/-- A concrete variant-B note, as the store would assign it first. -/
def noteB1 : Note Nat := { id := 1, title := "shopping", content := "milk" }

/-- A variant-B store holding one note, as after one `create`. -/
def storeB1 : Store Nat := { notes := [noteB1], nextId := 2 }

/-- An empty variant-A store. -/
def storeA0 : Store String := { notes := [], nextId := 1 }

/-- A concrete variant-A note. -/
def noteA1 : Note String := { id := "1", title := "shopping", content := "milk" }

/-- A variant-A store holding one note. -/
def storeA1 : Store String := { notes := [noteA1], nextId := 2 }

/-- The empty update payload. -/
def patch0 : NotePatch := { title := none, content := none }

/-- An update payload carrying only a new title. -/
def patchTitle : NotePatch := { title := some "groceries", content := none }

/-- A concrete creation payload. -/
def dtoShopping : CreateDto := { title := "shopping", content := "milk" }

/-! ### Helper lemmas about the embedded list-level store primitives -/

/-- `prefOf` recognizes exactly the lists that extend `p` on the right. -/
theorem prefOf_iff (p : List Char) : ∀ l, prefOf p l = true ↔ ∃ q, l = p ++ q := by
  induction p with
  | nil => intro l; simp [prefOf]
  | cons a as ih =>
    intro l
    cases l with
    | nil => simp [prefOf]
    | cons b bs =>
      rw [prefOf, Bool.and_eq_true, beq_iff_eq, ih]
      constructor
      · rintro ⟨rfl, q, rfl⟩
        exact ⟨q, rfl⟩
      · rintro ⟨q, hq⟩
        rw [List.cons_append] at hq
        injection hq with h1 h2
        exact ⟨h1.symm, q, h2⟩

/-- `occursIn` recognizes exactly the lists with `p` as a contiguous
segment. -/
theorem occursIn_iff (p : List Char) : ∀ l, occursIn p l = true ↔ ∃ a b, l = a ++ p ++ b := by
  intro l
  induction l with
  | nil =>
    rw [occursIn, prefOf_iff]
    constructor
    · rintro ⟨q, hq⟩
      obtain ⟨rfl, rfl⟩ := List.append_eq_nil.mp hq.symm
      exact ⟨[], [], rfl⟩
    · rintro ⟨a, b, hab⟩
      obtain ⟨h1, rfl⟩ := List.append_eq_nil.mp hab.symm
      obtain ⟨rfl, rfl⟩ := List.append_eq_nil.mp h1
      exact ⟨[], rfl⟩
  | cons c cs ih =>
    rw [occursIn, Bool.or_eq_true, prefOf_iff, ih]
    constructor
    · rintro (⟨q, hq⟩ | ⟨a, b, hab⟩)
      · exact ⟨[], q, by simp [hq]⟩
      · exact ⟨c :: a, b, by simp [hab]⟩
    · rintro ⟨a, b, hab⟩
      cases a with
      | nil => exact Or.inl ⟨b, by simpa using hab⟩
      | cons d ds =>
        rw [List.cons_append, List.cons_append] at hab
        injection hab with h1 h2
        exact Or.inr ⟨ds, b, h2⟩

/-- The empty segment occurs in every list. -/
theorem occursIn_nil (l : List Char) : occursIn [] l = true := by
  cases l with
  | nil => rfl
  | cons c cs => simp [occursIn, prefOf]

/-- Every title contains the empty pattern. -/
theorem likeContains_empty (s : String) : likeContains s "" = true := by
  rw [likeContains]
  exact occursIn_nil s.data

/-- On a store with pairwise-distinct ids, looking up a member's id finds
exactly that member. -/
theorem find_id_of_mem {ι : Type} [BEq ι] [LawfulBEq ι]
    (l : List (Note ι)) (n : Note ι)
    (hpw : l.Pairwise (fun a b => a.id ≠ b.id)) (hn : n ∈ l) :
    l.find? (fun k => k.id == n.id) = some n := by
  induction l with
  | nil => cases hn
  | cons h t ih =>
    rcases List.mem_cons.mp hn with rfl | hnt
    · simp [List.find?_cons]
    · have hne : h.id ≠ n.id := (List.pairwise_cons.mp hpw).1 n hnt
      have hb : (h.id == n.id) = false := beq_eq_false_iff_ne.mpr hne
      rw [List.find?_cons, hb]
      exact ih (List.pairwise_cons.mp hpw).2 hnt

/-- Rewriting a member's row in place (by id, with an id-preserving edit
`g`) and looking that id up again finds the rewritten row. -/
theorem find_map_patched {ι : Type} [BEq ι] [LawfulBEq ι]
    (l : List (Note ι)) (n : Note ι) (g : Note ι → Note ι) (hg : (g n).id = n.id)
    (hpw : l.Pairwise (fun a b => a.id ≠ b.id)) (hn : n ∈ l) :
    (l.map (fun k => if k.id == n.id then g k else k)).find? (fun k => k.id == n.id)
      = some (g n) := by
  induction l with
  | nil => cases hn
  | cons h t ih =>
    rcases List.mem_cons.mp hn with rfl | hnt
    · simp [List.find?_cons, hg]
    · have hne : h.id ≠ n.id := (List.pairwise_cons.mp hpw).1 n hnt
      have hb : (h.id == n.id) = false := beq_eq_false_iff_ne.mpr hne
      rw [List.map_cons, if_neg (by simp [hb]), List.find?_cons, hb]
      exact ih (List.pairwise_cons.mp hpw).2 hnt

/-- Appending a record whose id matches and which no earlier record matches
makes lookup find the appended record. -/
theorem find_append_fresh {α : Type} (l : List α) (x : α) (p : α → Bool)
    (hl : ∀ y ∈ l, p y = false) (hx : p x = true) :
    (l ++ [x]).find? p = some x := by
  induction l with
  | nil => simp [List.find?_cons, hx]
  | cons h t ih =>
    have hh := hl h (List.mem_cons_self h t)
    rw [List.cons_append, List.find?_cons, hh]
    exact ih fun y hy => hl y (List.mem_cons_of_mem h hy)

/-- After deleting every row with a given id, looking that id up finds
nothing. -/
theorem find_filter_ne {ι : Type} [BEq ι] [LawfulBEq ι] (l : List (Note ι)) (i : ι) :
    (l.filter fun k => !(k.id == i)).find? (fun k => k.id == i) = none := by
  apply List.find?_eq_none.mpr
  intro x hx
  have hx2 := List.of_mem_filter hx
  simp at hx2 ⊢
  exact hx2

/-- A conditional row rewrite whose condition holds nowhere is the
identity. -/
theorem map_no_match {ι : Type} (l : List (Note ι))
    (c : Note ι → Bool) (g : Note ι → Note ι) (h : ∀ k ∈ l, c k = false) :
    l.map (fun k => if c k then g k else k) = l := by
  have h2 : l.map (fun k => if c k then g k else k) = l.map id :=
    List.map_congr_left fun a ha => by rw [h a ha]; rfl
  rw [h2, List.map_id]

/-- A filter every row passes keeps the store unchanged. -/
theorem filter_true_of_all {α : Type} (l : List α) (p : α → Bool)
    (h : ∀ a ∈ l, p a = true) : l.filter p = l :=
  List.filter_eq_self.mpr h

example : ServiceB.findOne storeB0 (some 7) = none := by decide
example : ServiceB.findOne storeB1 (some 1) =
    some { id := 1, title := "shopping", content := "milk" } := by decide
example : likeContains "shopping" "shop" = true := by decide
example : likeContains "shopping" "hopp" = true := by decide
example : likeContains "shopping" "x" = false := by decide
example : likeContains "shopping" "" = true := by decide

/-! ### The claims -/

/-- C1 counterexample: the claim asserts that `getNote`, `updateNote` and
`deleteNote` on an absent id fail with NotFound in both service variants,
but the numeric-id variant performs no existence check: on the empty store
with the absent id 7, `findOne` resolves to the null marker, `update`
resolves to the null marker, and `remove` resolves normally — none of the
three fails with NotFound. -/
theorem c1_cex_variantB_no_notfound :
    ServiceB.findOne storeB0 (some 7) = none ∧
    (ServiceB.update storeB0 (some 7) patch0).1 = none ∧
    ServiceB.remove storeB0 (some 7) = storeB0 := by
  decide

/-- C1 (amended): for every id absent from the store, in the string-id
variant `findOne`, `update` and `remove` each fail with NotFound and leave
the store unchanged; in the numeric-id variant `findOne` and `update`
resolve to the null marker and `remove` resolves normally, leaving the
store unchanged — only the string-id variant raises NotFound. -/
theorem c1_absent_id_notfound (sA : Store String) (i : String) (u : NotePatch)
    (hA : ∀ k ∈ sA.notes, k.id ≠ i)
    (sB : Store Nat) (j : Nat) (v : NotePatch)
    (hB : ∀ k ∈ sB.notes, k.id ≠ j) :
    ServiceA.findOne sA i = .error (.notFound (notFoundMsg i)) ∧
    ServiceA.update sA i u = (.error (.notFound (notFoundMsg i)), sA) ∧
    ServiceA.remove sA i = (.error (.notFound (notFoundMsg i)), sA) ∧
    ServiceB.findOne sB (some j) = none ∧
    (ServiceB.update sB (some j) v).1 = none ∧
    (ServiceB.update sB (some j) v).2 = sB ∧
    ServiceB.remove sB (some j) = sB := by
  have hfA : sA.notes.find? (fun k => k.id == i) = none :=
    List.find?_eq_none.mpr fun x hx => by simpa using hA x hx
  have hone : ServiceA.findOne sA i = .error (.notFound (notFoundMsg i)) := by
    rw [ServiceA.findOne, hfA]
  have hmB : ∀ k ∈ sB.notes, matchesId (some j) k = false := by
    intro k hk
    simpa [matchesId] using hB k hk
  have hfB : sB.notes.find? (matchesId (some j)) = none :=
    List.find?_eq_none.mpr fun x hx => by simp [hmB x hx]
  have hmapB :
      sB.notes.map (fun k => if matchesId (some j) k then applyPatch k v else k) = sB.notes :=
    map_no_match _ _ _ hmB
  have hfilterB : (sB.notes.filter fun k => !(matchesId (some j) k)) = sB.notes :=
    filter_true_of_all _ _ fun k hk => by simp [hmB k hk]
  refine ⟨hone, ?_, ?_, hfB, ?_, ?_, ?_⟩
  · rw [ServiceA.update, hone]
  · rw [ServiceA.remove, hone]
  · show ServiceB.findOne _ (some j) = none
    rw [ServiceB.findOne]
    show (sB.notes.map _).find? _ = none
    rw [hmapB]
    exact hfB
  · show ({ sB with notes := _ } : Store Nat) = sB
    rw [hmapB]
  · show ({ sB with notes := _ } : Store Nat) = sB
    rw [hfilterB]

/-- C1 witness: the amended statement at the one-note stores and the absent
ids "9" and 9. -/
theorem c1_absent_id_notfound_witness :
    ServiceA.findOne storeA1 "9" = .error (.notFound (notFoundMsg "9")) ∧
    ServiceA.update storeA1 "9" patch0 = (.error (.notFound (notFoundMsg "9")), storeA1) ∧
    ServiceA.remove storeA1 "9" = (.error (.notFound (notFoundMsg "9")), storeA1) ∧
    ServiceB.findOne storeB1 (some 9) = none ∧
    (ServiceB.update storeB1 (some 9) patch0).1 = none ∧
    (ServiceB.update storeB1 (some 9) patch0).2 = storeB1 ∧
    ServiceB.remove storeB1 (some 9) = storeB1 :=
  c1_absent_id_notfound storeA1 "9" patch0 (by decide) storeB1 9 patch0 (by decide)

/-- C7: variant A's `update` and `remove` are atomic on error — whenever the
result is not ok (the existence check failed), the store after the call is
the store before it. -/
theorem c7_error_atomicity (s : Store String) (i : String) (u : NotePatch) :
    ((ServiceA.update s i u).1.isOk = false → (ServiceA.update s i u).2 = s) ∧
    ((ServiceA.remove s i).1.isOk = false → (ServiceA.remove s i).2 = s) := by
  cases hfind : ServiceA.findOne s i with
  | error e =>
    constructor
    · intro _
      rw [ServiceA.update, hfind]
    · intro _
      rw [ServiceA.remove, hfind]
  | ok n =>
    constructor
    · intro h
      rw [ServiceA.update, hfind] at h
      simp [Except.isOk, Except.toBool] at h
    · intro h
      rw [ServiceA.remove, hfind] at h
      simp [Except.isOk, Except.toBool] at h

/-- C8: each controller method is pure delegation to the one corresponding
service method; the only transformation is the numeric-id variant's `+id`
coercion of the path segment. -/
theorem c8_controller_delegation (sA : Store String) (sB : Store Nat)
    (idStr : String) (f : FilterNoteDto) (c : CreateDto) (u : NotePatch) :
    ControllerA.create sA c = ServiceA.create sA c ∧
    ControllerA.findAll sA f = ServiceA.findAll sA f ∧
    ControllerA.findOne sA idStr = ServiceA.findOne sA idStr ∧
    ControllerA.update sA idStr u = ServiceA.update sA idStr u ∧
    ControllerA.remove sA idStr = ServiceA.remove sA idStr ∧
    ControllerB.findAll sB = ServiceB.findAll sB ∧
    ControllerB.findOne sB idStr = ServiceB.findOne sB (jsToNumber idStr) ∧
    ControllerB.create sB c = ServiceB.create sB c ∧
    ControllerB.update sB idStr u = ServiceB.update sB (jsToNumber idStr) u ∧
    ControllerB.remove sB idStr = ServiceB.remove sB (jsToNumber idStr) :=
  ⟨rfl, rfl, rfl, rfl, rfl, rfl, rfl, rfl, rfl, rfl⟩

/-- C9: in the filtered variant, a present but empty title filter is falsy,
so `findAll` with `title = ""` returns the same rows as `findAll` with no
title filter — all persisted notes. -/
theorem c9_empty_title_filter (s : Store String) :
    ServiceA.findAll s { title := some "" } = ServiceA.findAll s { title := none } ∧
    ServiceA.findAll s { title := none } = s.notes := by
  exact ⟨rfl, rfl⟩

/-- C10: the numeric-id variant's `remove` deletes without an existence
check: on a store where the id matches nothing it resolves normally and
changes nothing, and for every store and id it is idempotent. -/
theorem c10_remove_idempotent (s : Store Nat) (q : Option Nat)
    (h : ∀ k ∈ s.notes, matchesId q k = false) :
    ServiceB.remove s q = s ∧
    ∀ (s2 : Store Nat) (q2 : Option Nat),
      ServiceB.remove (ServiceB.remove s2 q2) q2 = ServiceB.remove s2 q2 := by
  constructor
  · show ({ s with notes := _ } : Store Nat) = s
    rw [filter_true_of_all _ _ fun k hk => by simp [h k hk]]
  · intro s2 q2
    simp only [ServiceB.remove]
    have hidem : ((s2.notes.filter fun k => !(matchesId q2 k)).filter
        fun k => !(matchesId q2 k)) = s2.notes.filter fun k => !(matchesId q2 k) :=
      filter_true_of_all _ _ fun a ha => (List.mem_filter.mp ha).2
    rw [hidem]

/-- C10 witness: the statement at the one-note store and the absent id 9. -/
theorem c10_remove_idempotent_witness :
    ServiceB.remove storeB1 (some 9) = storeB1 ∧
    ∀ (s2 : Store Nat) (q2 : Option Nat),
      ServiceB.remove (ServiceB.remove s2 q2) q2 = ServiceB.remove s2 q2 :=
  c10_remove_idempotent storeB1 (some 9) (by decide)

/-- C2: partial update has merge semantics in both variants — on a store
with pairwise-distinct ids, updating a persisted note yields a record whose
fields present in the payload equal the payload's values and whose absent
fields keep the prior values. -/
theorem c2_update_merge (sA : Store String) (n : Note String) (u : NotePatch)
    (hpwA : sA.notes.Pairwise (fun a b => a.id ≠ b.id)) (hnA : n ∈ sA.notes)
    (sB : Store Nat) (m : Note Nat)
    (hpwB : sB.notes.Pairwise (fun a b => a.id ≠ b.id)) (hmB : m ∈ sB.notes) :
    (∃ r, (ServiceA.update sA n.id u).1 = .ok r ∧
      (∀ t, u.title = some t → r.title = t) ∧
      (u.title = none → r.title = n.title) ∧
      (∀ c, u.content = some c → r.content = c) ∧
      (u.content = none → r.content = n.content)) ∧
    (∃ r, (ServiceB.update sB (some m.id) u).1 = some r ∧
      (∀ t, u.title = some t → r.title = t) ∧
      (u.title = none → r.title = m.title) ∧
      (∀ c, u.content = some c → r.content = c) ∧
      (u.content = none → r.content = m.content)) := by
  have hfA : ServiceA.findOne sA n.id = .ok n := by
    rw [ServiceA.findOne, find_id_of_mem sA.notes n hpwA hnA]
  refine ⟨⟨applyPatch n u, ?_, ?_, ?_, ?_, ?_⟩, ⟨applyPatch m u, ?_, ?_, ?_, ?_, ?_⟩⟩
  · rw [ServiceA.update, hfA]
  · intro t ht
    simp [applyPatch, ht]
  · intro ht
    simp [applyPatch, ht]
  · intro c hc
    simp [applyPatch, hc]
  · intro hc
    simp [applyPatch, hc]
  · exact find_map_patched sB.notes m (fun k => applyPatch k u) rfl hpwB hmB
  · intro t ht
    simp [applyPatch, ht]
  · intro ht
    simp [applyPatch, ht]
  · intro c hc
    simp [applyPatch, hc]
  · intro hc
    simp [applyPatch, hc]

/-- C2 witness: the statement at the one-note stores with a title-only
payload. -/
theorem c2_update_merge_witness :
    (∃ r, (ServiceA.update storeA1 noteA1.id patchTitle).1 = .ok r ∧
      (∀ t, patchTitle.title = some t → r.title = t) ∧
      (patchTitle.title = none → r.title = noteA1.title) ∧
      (∀ c, patchTitle.content = some c → r.content = c) ∧
      (patchTitle.content = none → r.content = noteA1.content)) ∧
    (∃ r, (ServiceB.update storeB1 (some noteB1.id) patchTitle).1 = some r ∧
      (∀ t, patchTitle.title = some t → r.title = t) ∧
      (patchTitle.title = none → r.title = noteB1.title) ∧
      (∀ c, patchTitle.content = some c → r.content = c) ∧
      (patchTitle.content = none → r.content = noteB1.content)) :=
  c2_update_merge storeA1 noteA1 patchTitle (by simp [storeA1])
    (by simp [storeA1]) storeB1 noteB1 (by simp [storeB1]) (by simp [storeB1])

/-- C3: `listNotes` with a present title filter returns exactly the rows
whose title contains the filter string as a substring (the conjunct in the
middle characterizes the embedded containment test as the existence of a
decomposition around the pattern), and `listNotes` with no filter returns
all rows, in both variants. -/
theorem c3_findAll_filter (sA : Store String) (t : String) (sB : Store Nat) :
    ServiceA.findAll sA { title := some t } =
      sA.notes.filter (fun n => likeContains n.title t) ∧
    (∀ n : Note String, likeContains n.title t = true ↔
      ∃ a b, n.title.data = a ++ t.data ++ b) ∧
    ServiceA.findAll sA { title := none } = sA.notes ∧
    ServiceB.findAll sB = sB.notes := by
  refine ⟨?_, fun n => occursIn_iff t.data n.title.data, rfl, rfl⟩
  show (if t.isEmpty then sA.notes else sA.notes.filter fun n => likeContains n.title t) = _
  by_cases ht : t.isEmpty
  · rw [if_pos ht, eq_comm]
    have ht2 : t = "" := String.isEmpty_iff t |>.mp ht
    exact filter_true_of_all _ _ fun a _ => by rw [ht2]; exact likeContains_empty a.title
  · rw [if_neg ht]

/-- C4: create/read round-trip in both variants — creating from an
attribute set whose assigned id is fresh for the store and reading back the
returned id yields exactly the created record: the attributes plus the
assigned id. -/
theorem c4_create_read (sA : Store String) (a : CreateDto)
    (hA : ∀ k ∈ sA.notes, k.id ≠ genStringId sA)
    (sB : Store Nat) (b : CreateDto)
    (hB : ∀ k ∈ sB.notes, k.id ≠ sB.nextId) :
    ServiceA.findOne (ServiceA.create sA a).2 (ServiceA.create sA a).1.id =
      .ok (ServiceA.create sA a).1 ∧
    (ServiceA.create sA a).1.title = a.title ∧
    (ServiceA.create sA a).1.content = a.content ∧
    ServiceB.findOne (ServiceB.create sB b).2 (some (ServiceB.create sB b).1.id) =
      some (ServiceB.create sB b).1 ∧
    (ServiceB.create sB b).1.title = b.title ∧
    (ServiceB.create sB b).1.content = b.content := by
  refine ⟨?_, rfl, rfl, ?_, rfl, rfl⟩
  · have hf : (sA.notes ++
        [({ id := genStringId sA, title := a.title, content := a.content } : Note String)]).find?
          (fun k => k.id == genStringId sA) =
        some ({ id := genStringId sA, title := a.title, content := a.content } : Note String) :=
      find_append_fresh _ _ _
        (fun y hy => beq_eq_false_iff_ne.mpr (hA y hy)) (by simp)
    simp only [ServiceA.create, ServiceA.findOne]
    rw [hf]
  · have hf : (sB.notes ++
        [({ id := sB.nextId, title := b.title, content := b.content } : Note Nat)]).find?
          (matchesId (some sB.nextId)) =
        some ({ id := sB.nextId, title := b.title, content := b.content } : Note Nat) :=
      find_append_fresh _ _ _
        (fun y hy => by simp [matchesId]; exact hB y hy) (by simp [matchesId])
    simp only [ServiceB.create, ServiceB.findOne]
    rw [hf]

/-- C4 witness: the statement at the empty stores and the concrete creation
payload. -/
theorem c4_create_read_witness :
    ServiceA.findOne (ServiceA.create storeA0 dtoShopping).2
      (ServiceA.create storeA0 dtoShopping).1.id =
      .ok (ServiceA.create storeA0 dtoShopping).1 ∧
    (ServiceA.create storeA0 dtoShopping).1.title = dtoShopping.title ∧
    (ServiceA.create storeA0 dtoShopping).1.content = dtoShopping.content ∧
    ServiceB.findOne (ServiceB.create storeB0 dtoShopping).2
      (some (ServiceB.create storeB0 dtoShopping).1.id) =
      some (ServiceB.create storeB0 dtoShopping).1 ∧
    (ServiceB.create storeB0 dtoShopping).1.title = dtoShopping.title ∧
    (ServiceB.create storeB0 dtoShopping).1.content = dtoShopping.content :=
  c4_create_read storeA0 dtoShopping (by simp [storeA0])
    storeB0 dtoShopping (by simp [storeB0])

/-- C5 counterexample: the claim asserts that after a delete, reading the
deleted id fails with NotFound in both service variants; in the numeric-id
variant, deleting the persisted note 1 and reading id 1 back resolves to
the null marker instead — no NotFound error exists in that variant. -/
theorem c5_cex_variantB_null_marker :
    ServiceB.findOne (ServiceB.remove storeB1 (some 1)) (some 1) = none ∧
    (ServiceB.remove storeB1 (some 1)).notes = [] := by
  decide

/-- C5 (amended): delete is durable in both variants — removing a persisted
note succeeds, and reading the removed id back fails with NotFound in the
string-id variant and resolves to the null marker in the numeric-id
variant. -/
theorem c5_delete_durable (sA : Store String) (n : Note String) (hnA : n ∈ sA.notes)
    (sB : Store Nat) (m : Note Nat) (hmB : m ∈ sB.notes) :
    (ServiceA.remove sA n.id).1 = .ok () ∧
    ServiceA.findOne (ServiceA.remove sA n.id).2 n.id =
      .error (.notFound (notFoundMsg n.id)) ∧
    ServiceB.findOne (ServiceB.remove sB (some m.id)) (some m.id) = none := by
  have hsome : (sA.notes.find? fun k => k.id == n.id).isSome :=
    List.find?_isSome.mpr ⟨n, hnA, by simp⟩
  obtain ⟨n2, hn2⟩ := Option.isSome_iff_exists.mp hsome
  have hid : n2.id = n.id := by simpa using List.find?_some hn2
  have hone : ServiceA.findOne sA n.id = .ok n2 := by
    rw [ServiceA.findOne, hn2]
  refine ⟨?_, ?_, ?_⟩
  · rw [ServiceA.remove, hone]
  · simp only [ServiceA.remove, ServiceA.findOne, hn2]
    rw [hid, find_filter_ne]
  · have hm2 := hmB
    exact find_filter_ne sB.notes m.id

/-- C5 witness: the amended statement at the one-note stores. -/
theorem c5_delete_durable_witness :
    (ServiceA.remove storeA1 noteA1.id).1 = .ok () ∧
    ServiceA.findOne (ServiceA.remove storeA1 noteA1.id).2 noteA1.id =
      .error (.notFound (notFoundMsg noteA1.id)) ∧
    ServiceB.findOne (ServiceB.remove storeB1 (some noteB1.id)) (some noteB1.id) = none :=
  c5_delete_durable storeA1 noteA1 (by simp [storeA1]) storeB1 noteB1 (by simp [storeB1])

/-- C6: a note's id is immutable under update in both variants — on a store
with pairwise-distinct ids, updating a persisted note with any payload
yields a record with the same id. -/
theorem c6_id_immutable (sA : Store String) (n : Note String) (u : NotePatch)
    (hpwA : sA.notes.Pairwise (fun a b => a.id ≠ b.id)) (hnA : n ∈ sA.notes)
    (sB : Store Nat) (m : Note Nat)
    (hpwB : sB.notes.Pairwise (fun a b => a.id ≠ b.id)) (hmB : m ∈ sB.notes) :
    (∃ r, (ServiceA.update sA n.id u).1 = .ok r ∧ r.id = n.id) ∧
    (∃ r, (ServiceB.update sB (some m.id) u).1 = some r ∧ r.id = m.id) := by
  have hfA : ServiceA.findOne sA n.id = .ok n := by
    rw [ServiceA.findOne, find_id_of_mem sA.notes n hpwA hnA]
  refine ⟨⟨applyPatch n u, ?_, rfl⟩, ⟨applyPatch m u, ?_, rfl⟩⟩
  · rw [ServiceA.update, hfA]
  · exact find_map_patched sB.notes m (fun k => applyPatch k u) rfl hpwB hmB

/-- C6 witness: the statement at the one-note stores with a title-only
payload. -/
theorem c6_id_immutable_witness :
    (∃ r, (ServiceA.update storeA1 noteA1.id patchTitle).1 = .ok r ∧ r.id = noteA1.id) ∧
    (∃ r, (ServiceB.update storeB1 (some noteB1.id) patchTitle).1 = some r ∧ r.id = noteB1.id) :=
  c6_id_immutable storeA1 noteA1 patchTitle (by simp [storeA1])
    (by simp [storeA1]) storeB1 noteB1 (by simp [storeB1]) (by simp [storeB1])
